import Mathlib

/-!
Verification development for the image customization transform pipeline of the
loretana backend (CustomizerService: transformImage and applyShapeMask).

The geometry of the pipeline is pure arithmetic over the customization
parameters (x, y, zoom are JS numbers, modelled as rationals; Math.round is
modelled by the Mathlib round, which agrees with the JS rounding
floor(x + 1/2)). The image-processing calls (sharp resize, extract, png,
composite, create) are modelled at the level of image dimensions together
with an explicit success or thrown-error outcome; a codec (PNG encode)
failure can be injected through an Option parameter carrying an opaque
error code.
-/

namespace Customizer

/-- The three clipping shapes accepted by the service
(circle, heart, rectangle). -/
inductive Shape
  | circle
  | heart
  | rectangle
deriving DecidableEq

/-- Customization data as received by the service: x and y are the desired
center position in percent, zoom the magnification, shape the clip shape. -/
structure CustomizationData where
  x : ℚ
  y : ℚ
  zoom : ℚ
  shape : Shape

/-- Zoom clamp of transformImage: Math.max(0.1, Math.min(5, zoom)). -/
def clampZoom (z : ℚ) : ℚ := max (1 / 10) (min 5 z)

/-- Percent clamp applied to x and y: Math.max(0, Math.min(100, v)). -/
def clampPct (v : ℚ) : ℚ := max 0 (min 100 v)

/-- All geometry quantities computed by transformImage before any sharp
call: scaled dimensions, center, top-left placement, extraction rectangle and
composite position. -/
structure Placement where
  scaledWidth : ℤ
  scaledHeight : ℤ
  centerX : ℤ
  centerY : ℤ
  imageLeft : ℤ
  imageTop : ℤ
  extractLeft : ℤ
  extractTop : ℤ
  extractWidth : ℤ
  extractHeight : ℤ
  compositeLeft : ℤ
  compositeTop : ℤ
deriving DecidableEq

/-- The geometry portion of transformImage, line for line:
clamp zoom to [0.1, 5] and x, y to [0, 100]; scale the output dimensions by
zoom; place the scaled image by its center; derive the extraction rectangle
(skipping the off-canvas part when the placement is negative, then capping at
the output dimensions); and take the composite position as the nonnegative
part of the placement. -/
def resolveGeometry (outputWidth outputHeight : ℤ) (cd : CustomizationData) :
    Placement :=
  let zoom := clampZoom cd.zoom
  let x := clampPct cd.x
  let y := clampPct cd.y
  let scaledWidth : ℤ := round ((outputWidth : ℚ) * zoom)
  let scaledHeight : ℤ := round ((outputHeight : ℚ) * zoom)
  let centerX : ℤ := round (x / 100 * (outputWidth : ℚ))
  let centerY : ℤ := round (y / 100 * (outputHeight : ℚ))
  let imageLeft : ℤ := round ((centerX : ℚ) - (scaledWidth : ℚ) / 2)
  let imageTop : ℤ := round ((centerY : ℚ) - (scaledHeight : ℚ) / 2)
  let extractLeft : ℤ := if imageLeft < 0 then |imageLeft| else 0
  let extractTop : ℤ := if imageTop < 0 then |imageTop| else 0
  let extractWidthRaw : ℤ :=
    if imageLeft < 0 then scaledWidth - |imageLeft| else scaledWidth
  let extractHeightRaw : ℤ :=
    if imageTop < 0 then scaledHeight - |imageTop| else scaledHeight
  { scaledWidth := scaledWidth
    scaledHeight := scaledHeight
    centerX := centerX
    centerY := centerY
    imageLeft := imageLeft
    imageTop := imageTop
    extractLeft := extractLeft
    extractTop := extractTop
    extractWidth := min extractWidthRaw outputWidth
    extractHeight := min extractHeightRaw outputHeight
    compositeLeft := max 0 imageLeft
    compositeTop := max 0 imageTop }

/-- An image buffer, modelled by its pixel dimensions (the claims about
buffers concern dimensions and success or failure only). -/
structure Image where
  width : ℤ
  height : ℤ
deriving DecidableEq

/-- Errors observable from the pipeline methods.
The constructor sharpFailure carries an opaque code for an error thrown
inside the sharp library (codec or geometry failure); badRequestTransform is
the BadRequestException with message Failed to transform image thrown by the
catch block of transformImage; badRequestMask is the BadRequestException
with message Failed to apply (shape) mask thrown by the catch block of
applyShapeMask. -/
inductive PipelineError
  | sharpFailure (code : ℕ)
  | badRequestTransform
  | badRequestMask (shape : Shape)
deriving DecidableEq

instance {e a : Type} [DecidableEq e] [DecidableEq a] : DecidableEq (Except e a) :=
  fun x y =>
    match x, y with
    | .error eL, .error eR =>
      if h : eL = eR then isTrue (by rw [h]) else isFalse (by simp [h])
    | .ok vL, .ok vR =>
      if h : vL = vR then isTrue (by rw [h]) else isFalse (by simp [h])
    | .error _, .ok _ => isFalse (by simp)
    | .ok _, .error _ => isFalse (by simp)

/-- Model of sharp resize(w, h): fails unless both targets are positive, else
yields a buffer of exactly the requested dimensions (cover fit fills the
box). -/
def sharpResize (img : Image) (w h : ℤ) : Except PipelineError Image :=
  if w ≤ 0 ∨ h ≤ 0 then .error (.sharpFailure 0) else .ok ⟨w, h⟩

/-- Model of sharp extract(left, top, width, height): fails when the
requested area is empty or not contained in the input buffer (bad extract
area). -/
def sharpExtract (img : Image) (l t w h : ℤ) : Except PipelineError Image :=
  if l < 0 ∨ t < 0 ∨ w ≤ 0 ∨ h ≤ 0 ∨ img.width < l + w ∨ img.height < t + h
  then .error (.sharpFailure 1) else .ok ⟨w, h⟩

/-- Model of the PNG encode step png().toBuffer(). A codec failure is
injected through enc: passing some c makes every encode throw the codec
error sharpFailure c; none makes encoding succeed, preserving dimensions. -/
def sharpPng (enc : Option ℕ) (img : Image) : Except PipelineError Image :=
  match enc with
  | some c => .error (.sharpFailure c)
  | none => .ok img

/-- Model of sharp create: allocates a canvas; fails on non-positive
dimensions. -/
def sharpCreate (w h : ℤ) : Except PipelineError Image :=
  if w ≤ 0 ∨ h ≤ 0 then .error (.sharpFailure 2) else .ok ⟨w, h⟩

/-- Model of sharp composite: fails when the overlay is larger than the base
image, else keeps the base dimensions. -/
def sharpComposite (base overlay : Image) (t l : ℤ) : Except PipelineError Image :=
  if base.width < overlay.width ∨ base.height < overlay.height
  then .error (.sharpFailure 3) else .ok base

/-- The body of the try block of transformImage: resolve the geometry,
resize the source to the scaled dimensions, extract the visible region,
PNG-encode the crop, then composite it onto a fresh white canvas of the
output dimensions and encode the result. -/
def transformImageTry (enc : Option ℕ) (src : Image) (cd : CustomizationData)
    (outputWidth outputHeight : ℤ) : Except PipelineError Image := do
  let g := resolveGeometry outputWidth outputHeight cd
  let resized ← sharpResize src g.scaledWidth g.scaledHeight
  let croppedRaw ← sharpExtract resized g.extractLeft g.extractTop
    g.extractWidth g.extractHeight
  let croppedImage ← sharpPng enc croppedRaw
  let canvas ← sharpCreate outputWidth outputHeight
  let composited ← sharpComposite canvas croppedImage g.compositeTop g.compositeLeft
  sharpPng enc composited

/-- Model of transformImage: runs the try block; the catch block converts
any thrown error into the BadRequestException with message Failed to
transform image. -/
def transformImage (enc : Option ℕ) (src : Image) (cd : CustomizationData)
    (outputWidth outputHeight : ℤ) : Except PipelineError Image :=
  match transformImageTry enc src cd outputWidth outputHeight with
  | .ok r => .ok r
  | .error _ => .error .badRequestTransform

/-- The body of the try block of applyShapeMask: resize the input to the
target dimensions, render the shape mask SVG (natural size w by h, resized
with fill fit and PNG-encoded), create the white background, then composite
the image (blend over) and the mask (blend dest-in) onto it and encode. -/
def applyShapeMaskTry (enc : Option ℕ) (img : Image) (w h : ℤ) (shape : Shape) :
    Except PipelineError Image := do
  let resized ← sharpResize img w h
  let maskRaw ← sharpResize ⟨w, h⟩ w h
  let maskImage ← sharpPng enc maskRaw
  let whiteBgRaw ← sharpCreate w h
  let whiteBg ← sharpPng enc whiteBgRaw
  let overlaid ← sharpComposite whiteBg resized 0 0
  let masked ← sharpComposite overlaid maskImage 0 0
  sharpPng enc masked

/-- Model of applyShapeMask: runs the try block; the catch block converts
any thrown error into the BadRequestException with message Failed to apply
(shape) mask. -/
def applyShapeMask (enc : Option ℕ) (img : Image) (w h : ℤ) (shape : Shape) :
    Except PipelineError Image :=
  match applyShapeMaskTry enc img w h shape with
  | .ok r => .ok r
  | .error _ => .error (.badRequestMask shape)

/-- The pipeline as invoked by uploadSessionImage but with the canvas size
kept as a parameter: transformImage followed by applyShapeMask on the same
canvas dimensions and the requested shape. -/
def fullPipeline (enc : Option ℕ) (src : Image) (cd : CustomizationData)
    (outputWidth outputHeight : ℤ) : Except PipelineError Image := do
  let transformed ← transformImage enc src cd outputWidth outputHeight
  applyShapeMask enc transformed outputWidth outputHeight cd.shape

/-- The product configuration: uploadSessionImage fixes the canvas at
500 by 500. -/
def customizerPipeline (enc : Option ℕ) (src : Image) (cd : CustomizationData) :
    Except PipelineError Image :=
  fullPipeline enc src cd 500 500

/-! ### Shape mask geometry

The mask SVGs built by applyShapeMask, read off the source: the circle mask
is a circle with cx = width/2, cy = height/2, r = min(width, height)/2; the
rectangle mask is a rect with x = y = padding, width = width - 2 * padding,
height = height - 2 * padding and rx = 10, where
padding = min(width, height) * 0.08. The SVG is rendered at its natural size
(its width and height attributes already equal the canvas), so the
coordinates below are final canvas coordinates. -/

/-- Membership of the point (px, py) in the filled disk of the circle mask
SVG. -/
def circleMaskFilled (w h : ℤ) (px py : ℚ) : Prop :=
  (px - (w : ℚ) / 2) ^ 2 + (py - (h : ℚ) / 2) ^ 2 ≤ (((min w h : ℤ) : ℚ) / 2) ^ 2

instance (w h : ℤ) (px py : ℚ) : Decidable (circleMaskFilled w h px py) := by
  unfold circleMaskFilled
  infer_instance

/-- Alpha of the final output of applyShapeMask with the circle shape at
point (px, py): the composite of the image over the white background is
fully opaque, and the dest-in blend with the binary mask keeps alpha 255
exactly where the mask is filled and sets it to 0 elsewhere. -/
def circleShapedAlpha (w h : ℤ) (px py : ℚ) : ℕ :=
  if circleMaskFilled w h px py then 255 else 0

/-- Inset of the rectangle mask from each canvas edge:
Math.min(width, height) * 0.08. -/
def rectMaskPadding (w h : ℤ) : ℚ := ((min w h : ℤ) : ℚ) * (8 / 100)

/-- Attribute x of the rectangle mask rect element. -/
def rectMaskX (w h : ℤ) : ℚ := rectMaskPadding w h

/-- Attribute y of the rectangle mask rect element. -/
def rectMaskY (w h : ℤ) : ℚ := rectMaskPadding w h

/-- Attribute width of the rectangle mask rect element. -/
def rectMaskWidth (w h : ℤ) : ℚ := (w : ℚ) - rectMaskPadding w h * 2

/-- Attribute height of the rectangle mask rect element. -/
def rectMaskHeight (w h : ℤ) : ℚ := (h : ℚ) - rectMaskPadding w h * 2

/-- Attribute rx (corner radius) of the rectangle mask as the code writes it
into the SVG: the constant 10. -/
def rectMaskCornerRadius (w h : ℤ) : ℚ := 10

/-- Modelled from the spec: the corner radius the specification describes for
the rectangle mask — 10 px at reference scale, scaled proportionally for
other sizes, the reference scale being the 500 by 500 product canvas. Kept
separate from rectMaskCornerRadius (the value the code uses) for
comparison. -/
def rectMaskCornerRadiusSpec (w h : ℤ) : ℚ := 10 * ((min w h : ℤ) : ℚ) / 500

/-! ### Helper lemmas -/

/-- Evaluation rule for rounding: round x equals q once x + 1/2 lies in
[q, q + 1) (JS Math.round is floor(x + 0.5), made explicit for concrete
evaluations). -/
theorem round_eq_of (x : ℚ) (q : ℤ) (h1 : (q : ℚ) ≤ x + 1/2) (h2 : x + 1/2 < (q : ℚ) + 1) :
    round x = q := by
  rw [round_eq]
  exact Int.floor_eq_iff.mpr ⟨h1, h2⟩

/-- Rounding is monotone. -/
theorem round_le_round {x y : ℚ} (h : x ≤ y) : round x ≤ round y := by
  rw [round_eq, round_eq]
  exact Int.floor_le_floor (by linarith)

/-- Lower bound on a rounded value. -/
theorem sub_half_lt_round (x : ℚ) : x - 1/2 < (round x : ℚ) := by
  rw [round_eq]
  have := Int.lt_floor_add_one (x + 1/2)
  linarith

/-- The clamped zoom lies in the interval from 1/10 to 5. -/
theorem clampZoom_mem (z : ℚ) : 1/10 ≤ clampZoom z ∧ clampZoom z ≤ 5 := by
  constructor
  · exact le_max_left _ _
  · apply max_le (by norm_num)
    exact min_le_left _ _

/-- The clamped percentage lies in the interval from 0 to 100. -/
theorem clampPct_mem (v : ℚ) : 0 ≤ clampPct v ∧ clampPct v ≤ 100 := by
  constructor
  · exact le_max_left _ _
  · apply max_le (by norm_num)
    exact min_le_left _ _

/-- The zoom clamp is monotone. -/
theorem clampZoom_le_clampZoom {z1 z2 : ℚ} (h : z1 ≤ z2) : clampZoom z1 ≤ clampZoom z2 := by
  unfold clampZoom
  exact max_le_max le_rfl (min_le_min le_rfl h)

/-- The resolver reads its input only through the clamps. -/
theorem resolveGeometry_congr (ow oh : ℤ) (cd cdB : CustomizationData)
    (hx : clampPct cd.x = clampPct cdB.x) (hy : clampPct cd.y = clampPct cdB.y)
    (hz : clampZoom cd.zoom = clampZoom cdB.zoom) :
    resolveGeometry ow oh cd = resolveGeometry ow oh cdB := by
  simp only [resolveGeometry, hx, hy, hz]

/-- Clamping is the identity on the in-range zoom value 1. -/
theorem clampZoom_one : clampZoom 1 = 1 := by
  norm_num [clampZoom, min_def, max_def]

/-- Clamping is the identity on the in-range percentage 0. -/
theorem clampPct_zero : clampPct 0 = 0 := by
  norm_num [clampPct, min_def, max_def]

/-- Concrete resolution used by several runs: centered, zoom 1, canvas
500 by 500. -/
theorem geomA : resolveGeometry 500 500 ⟨50, 50, 1, Shape.circle⟩ =
    ⟨500, 500, 250, 250, 0, 0, 0, 0, 500, 500, 0, 0⟩ := by
  have hx : clampPct 50 = 50 := by norm_num [clampPct, min_def, max_def]
  have r1 : round (((500 : ℤ) : ℚ) * clampZoom 1) = 500 := by
    rw [clampZoom_one]
    apply round_eq_of <;> push_cast <;> norm_num
  have r2 : round (clampPct 50 / 100 * ((500 : ℤ) : ℚ)) = 250 := by
    rw [hx]
    apply round_eq_of <;> push_cast <;> norm_num
  have r3 : round (((250 : ℤ) : ℚ) - ((500 : ℤ) : ℚ) / 2) = 0 := by
    apply round_eq_of <;> push_cast <;> norm_num
  simp only [resolveGeometry, r1, r2, r3]
  decide

/-- Concrete resolution on a degenerate 1 by 1 canvas at minimum zoom: the
scaled size rounds to 0 and the extraction resolves to width and height 0. -/
theorem geomB : resolveGeometry 1 1 ⟨0, 0, 1/10, Shape.circle⟩ =
    ⟨0, 0, 0, 0, 0, 0, 0, 0, 0, 0, 0, 0⟩ := by
  have hz : clampZoom (1/10) = 1/10 := by norm_num [clampZoom, min_def, max_def]
  have r1 : round (((1 : ℤ) : ℚ) * clampZoom (1/10)) = 0 := by
    rw [hz]
    apply round_eq_of <;> push_cast <;> norm_num
  have r2 : round (clampPct 0 / 100 * ((1 : ℤ) : ℚ)) = 0 := by
    rw [clampPct_zero]
    apply round_eq_of <;> push_cast <;> norm_num
  have r3 : round (((0 : ℤ) : ℚ) - ((0 : ℤ) : ℚ) / 2) = 0 := by
    apply round_eq_of <;> push_cast <;> norm_num
  simp only [resolveGeometry, r1, r2, r3]
  decide

/-- When the try block of transformImage throws, the catch block returns the
generic transform BadRequestException. -/
theorem transformImage_of_try_error (enc : Option ℕ) (src : Image)
    (cd : CustomizationData) (ow oh : ℤ) (e : PipelineError)
    (h : transformImageTry enc src cd ow oh = .error e) :
    transformImage enc src cd ow oh = .error .badRequestTransform := by
  unfold transformImage
  rw [h]

/-- When the try block of transformImage succeeds, its value is returned. -/
theorem transformImage_of_try_ok (enc : Option ℕ) (src : Image)
    (cd : CustomizationData) (ow oh : ℤ) (r : Image)
    (h : transformImageTry enc src cd ow oh = .ok r) :
    transformImage enc src cd ow oh = .ok r := by
  unfold transformImage
  rw [h]

/-- When the try block of applyShapeMask succeeds, its value is returned. -/
theorem applyShapeMask_of_try_ok (enc : Option ℕ) (img : Image) (w h : ℤ)
    (s : Shape) (r : Image) (htry : applyShapeMaskTry enc img w h s = .ok r) :
    applyShapeMask enc img w h s = .ok r := by
  unfold applyShapeMask
  rw [htry]

/-- With an injected codec failure every encode throws, so the try block of
transformImage cannot succeed and the catch block yields the generic
BadRequestException regardless of input. -/
theorem transformImage_codec_fails (c : ℕ) (src : Image) (cd : CustomizationData)
    (ow oh : ℤ) :
    transformImage (some c) src cd ow oh = .error .badRequestTransform := by
  unfold transformImage
  suffices h : ∀ r, transformImageTry (some c) src cd ow oh ≠ .ok r by
    cases htry : transformImageTry (some c) src cd ow oh with
    | ok r => exact absurd htry (h r)
    | error e => rfl
  intro r h
  unfold transformImageTry at h
  simp only [bind, Except.bind, sharpResize, sharpExtract, sharpPng] at h
  split_ifs at h
  all_goals try simp at h
  all_goals (split at h <;> simp at h)

/-- Same for applyShapeMask: an injected codec failure always surfaces as
the generic shape-mask BadRequestException. -/
theorem applyShapeMask_codec_fails (c : ℕ) (img : Image) (w h : ℤ) (s : Shape) :
    applyShapeMask (some c) img w h s = .error (.badRequestMask s) := by
  unfold applyShapeMask
  suffices hs : ∀ r, applyShapeMaskTry (some c) img w h s ≠ .ok r by
    cases htry : applyShapeMaskTry (some c) img w h s with
    | ok r => exact absurd htry (hs r)
    | error e => rfl
  intro r h
  unfold applyShapeMaskTry at h
  simp only [bind, Except.bind, sharpResize, sharpPng] at h
  split_ifs at h <;> simp at h

/-- A successful applyShapeMask always returns a buffer of exactly the
requested dimensions (the final composite keeps the canvas size of the white
background). -/
theorem applyShapeMask_dims (enc : Option ℕ) (img : Image) (w h : ℤ) (s : Shape)
    (out : Image) (hok : applyShapeMask enc img w h s = .ok out) : out = ⟨w, h⟩ := by
  unfold applyShapeMask at hok
  cases htry : applyShapeMaskTry enc img w h s with
  | error e =>
    rw [htry] at hok
    simp at hok
  | ok r =>
    rw [htry] at hok
    simp at hok
    subst hok
    cases enc with
    | some c =>
      exfalso
      unfold applyShapeMaskTry at htry
      simp only [bind, Except.bind, sharpResize, sharpPng] at htry
      split_ifs at htry <;> simp at htry
    | none =>
      unfold applyShapeMaskTry at htry
      by_cases hcond : w ≤ 0 ∨ h ≤ 0
      · simp [bind, Except.bind, sharpResize, hcond] at htry
      · simp [bind, Except.bind, sharpResize, sharpPng, sharpCreate, sharpComposite,
          hcond] at htry
        exact htry.symm

/-- One axis of the extraction rectangle: the extract offset and size
computed by the code keep the extraction inside the resized image and
non-empty, provided the rounded scaled size is at least 1 and the rounded
center is nonnegative. -/
theorem extract_axis (out c s : ℤ) (hout : 1 ≤ out) (hc : 0 ≤ c) (hs : 1 ≤ s) :
    0 ≤ (if round ((c : ℚ) - (s : ℚ)/2) < 0 then |round ((c : ℚ) - (s : ℚ)/2)| else 0) ∧
    (if round ((c : ℚ) - (s : ℚ)/2) < 0 then |round ((c : ℚ) - (s : ℚ)/2)| else 0) +
      min (if round ((c : ℚ) - (s : ℚ)/2) < 0 then s - |round ((c : ℚ) - (s : ℚ)/2)| else s) out ≤ s ∧
    1 ≤ min (if round ((c : ℚ) - (s : ℚ)/2) < 0 then s - |round ((c : ℚ) - (s : ℚ)/2)| else s) out := by
  by_cases hL : round ((c : ℚ) - (s : ℚ)/2) < 0
  · simp only [if_pos hL]
    have habs : |round ((c : ℚ) - (s : ℚ)/2)| = -round ((c : ℚ) - (s : ℚ)/2) := abs_of_neg hL
    have hlow : (c : ℚ) - (s : ℚ)/2 - 1/2 < (round ((c : ℚ) - (s : ℚ)/2) : ℚ) :=
      sub_half_lt_round _
    have hcq : (0 : ℚ) ≤ (c : ℚ) := by exact_mod_cast hc
    have hsq : (1 : ℚ) ≤ (s : ℚ) := by exact_mod_cast hs
    have hkey : 1 ≤ s - |round ((c : ℚ) - (s : ℚ)/2)| := by
      rw [habs]
      have : (0 : ℚ) < (s : ℚ) + (round ((c : ℚ) - (s : ℚ)/2) : ℚ) := by linarith
      have hz : (0 : ℤ) < s + round ((c : ℚ) - (s : ℚ)/2) := by exact_mod_cast this
      omega
    refine ⟨abs_nonneg _, ?_, le_min hkey hout⟩
    have := min_le_left (s - |round ((c : ℚ) - (s : ℚ)/2)|) out
    omega
  · simp only [if_neg hL]
    refine ⟨le_rfl, ?_, le_min hs hout⟩
    have := min_le_left s out
    omega

/-! ### Claims -/

/-- C1 counterexample: at canvas 500 by 500 with x = 100 and zoom = 2 the
placement is not negative, yet the resolved extract width is the canvas
width 500, not the scaled width 1000 that the claim predicts for this case
(the code additionally caps the extraction at the canvas size). -/
theorem c1_counterexample :
    0 ≤ (resolveGeometry 500 500 ⟨100, 100, 2, Shape.circle⟩).imageLeft ∧
    (resolveGeometry 500 500 ⟨100, 100, 2, Shape.circle⟩).extractLeft = 0 ∧
    (resolveGeometry 500 500 ⟨100, 100, 2, Shape.circle⟩).scaledWidth = 1000 ∧
    (resolveGeometry 500 500 ⟨100, 100, 2, Shape.circle⟩).extractWidth = 500 := by
  have hz : clampZoom 2 = 2 := by norm_num [clampZoom, min_def, max_def]
  have hx : clampPct 100 = 100 := by norm_num [clampPct, min_def, max_def]
  have r1 : round (((500 : ℤ) : ℚ) * clampZoom 2) = 1000 := by
    rw [hz]
    apply round_eq_of <;> push_cast <;> norm_num
  have r2 : round (clampPct 100 / 100 * ((500 : ℤ) : ℚ)) = 500 := by
    rw [hx]
    apply round_eq_of <;> push_cast <;> norm_num
  simp only [resolveGeometry, r1, r2]
  have r3 : round (((500 : ℤ) : ℚ) - ((1000 : ℤ) : ℚ) / 2) = 0 := by
    apply round_eq_of <;> push_cast <;> norm_num
  rw [r3]
  norm_num

/-- C1 (amended): for every positive canvas and every input, the resolver
computes scaled dimensions as round(canvas * clamped zoom), the center as
round(clamped percent / 100 * canvas), the placement as
round(center - scaled/2); when the placement is negative the extract offset
is its negation and the extract size is the scaled size minus the offset,
otherwise the offset is 0 and the extract size is the scaled size — in both
cases additionally capped at the canvas size; the composite position is the
nonnegative part of the placement. -/
theorem c1_geometry_resolution (ow oh : ℤ) (hw : 0 < ow) (hh : 0 < oh)
    (cd : CustomizationData) :
    let g := resolveGeometry ow oh cd
    g.scaledWidth = round ((ow : ℚ) * clampZoom cd.zoom) ∧
    g.scaledHeight = round ((oh : ℚ) * clampZoom cd.zoom) ∧
    g.centerX = round (clampPct cd.x / 100 * (ow : ℚ)) ∧
    g.centerY = round (clampPct cd.y / 100 * (oh : ℚ)) ∧
    g.imageLeft = round ((g.centerX : ℚ) - (g.scaledWidth : ℚ) / 2) ∧
    g.imageTop = round ((g.centerY : ℚ) - (g.scaledHeight : ℚ) / 2) ∧
    (g.imageLeft < 0 →
      g.extractLeft = -g.imageLeft ∧ g.extractWidth = min (g.scaledWidth - g.extractLeft) ow) ∧
    (0 ≤ g.imageLeft → g.extractLeft = 0 ∧ g.extractWidth = min g.scaledWidth ow) ∧
    (g.imageTop < 0 →
      g.extractTop = -g.imageTop ∧ g.extractHeight = min (g.scaledHeight - g.extractTop) oh) ∧
    (0 ≤ g.imageTop → g.extractTop = 0 ∧ g.extractHeight = min g.scaledHeight oh) ∧
    g.compositeLeft = max 0 g.imageLeft ∧
    g.compositeTop = max 0 g.imageTop := by
  dsimp only [resolveGeometry]
  refine ⟨rfl, rfl, rfl, rfl, rfl, rfl, ?_, ?_, ?_, ?_, rfl, rfl⟩
  · intro hL
    simp only [if_pos hL, abs_of_neg hL]
    exact ⟨trivial, trivial⟩
  · intro hL
    simp only [if_neg (not_lt.mpr hL)]
    exact ⟨trivial, trivial⟩
  · intro hT
    simp only [if_pos hT, abs_of_neg hT]
    exact ⟨trivial, trivial⟩
  · intro hT
    simp only [if_neg (not_lt.mpr hT)]
    exact ⟨trivial, trivial⟩

/-- Witness for the C1 theorem at canvas 500 by 500, center (0, 0), zoom 1. -/
theorem c1_witness :
    (0 : ℤ) < 500 ∧ (0 : ℤ) < 500 ∧
    (let g := resolveGeometry 500 500 ⟨0, 0, 1, Shape.circle⟩
    g.scaledWidth = round ((500 : ℚ) * clampZoom 1) ∧
    g.scaledHeight = round ((500 : ℚ) * clampZoom 1) ∧
    g.centerX = round (clampPct 0 / 100 * (500 : ℚ)) ∧
    g.centerY = round (clampPct 0 / 100 * (500 : ℚ)) ∧
    g.imageLeft = round ((g.centerX : ℚ) - (g.scaledWidth : ℚ) / 2) ∧
    g.imageTop = round ((g.centerY : ℚ) - (g.scaledHeight : ℚ) / 2) ∧
    (g.imageLeft < 0 →
      g.extractLeft = -g.imageLeft ∧ g.extractWidth = min (g.scaledWidth - g.extractLeft) 500) ∧
    (0 ≤ g.imageLeft → g.extractLeft = 0 ∧ g.extractWidth = min g.scaledWidth 500) ∧
    (g.imageTop < 0 →
      g.extractTop = -g.imageTop ∧ g.extractHeight = min (g.scaledHeight - g.extractTop) 500) ∧
    (0 ≤ g.imageTop → g.extractTop = 0 ∧ g.extractHeight = min g.scaledHeight 500) ∧
    g.compositeLeft = max 0 g.imageLeft ∧
    g.compositeTop = max 0 g.imageTop) := by
  refine ⟨by decide, by decide, ?_⟩
  have := c1_geometry_resolution 500 500 (by decide) (by decide) ⟨0, 0, 1, Shape.circle⟩
  push_cast at this ⊢
  exact this

/-- C2: the resolver treats centerXPercent 150 identically to 100, zoom 9
identically to zoom 5, and center (200, 200) identically to an explicit
(100, 100) request — out-of-range inputs are clamped before any geometry
math, for every canvas. -/
theorem c2_boundary_clamp_equivalence (ow oh : ℤ) :
    (∀ y z s sB, resolveGeometry ow oh ⟨150, y, z, s⟩ = resolveGeometry ow oh ⟨100, y, z, sB⟩) ∧
    (∀ x y s sB, resolveGeometry ow oh ⟨x, y, 9, s⟩ = resolveGeometry ow oh ⟨x, y, 5, sB⟩) ∧
    (∀ z s sB, resolveGeometry ow oh ⟨200, 200, z, s⟩ = resolveGeometry ow oh ⟨100, 100, z, sB⟩) := by
  refine ⟨fun y z s sB => ?_, fun x y s sB => ?_, fun z s sB => ?_⟩
  · exact resolveGeometry_congr _ _ _ _ (by norm_num [clampPct, min_def, max_def]) rfl rfl
  · exact resolveGeometry_congr _ _ _ _ rfl rfl (by norm_num [clampZoom, min_def, max_def])
  · exact resolveGeometry_congr _ _ _ _ (by norm_num [clampPct, min_def, max_def])
      (by norm_num [clampPct, min_def, max_def]) rfl

/-- C3 counterexample: zoom values 1 and 10001/10000 are both in range and
the second is strictly larger, yet both resolve to scaled width 500 on the
500 by 500 canvas — rounding collapses nearby zoom values, so scaled
dimensions are not strictly monotone in zoom. -/
theorem c3_counterexample :
    (1 : ℚ) < 10001/10000 ∧ (1/10 : ℚ) ≤ 1 ∧ (10001/10000 : ℚ) ≤ 5 ∧
    (resolveGeometry 500 500 ⟨50, 50, 1, Shape.circle⟩).scaledWidth = 500 ∧
    (resolveGeometry 500 500 ⟨50, 50, 10001/10000, Shape.circle⟩).scaledWidth = 500 := by
  refine ⟨by norm_num, by norm_num, by norm_num, ?_, ?_⟩
  · dsimp only [resolveGeometry]
    rw [clampZoom_one]
    apply round_eq_of <;> push_cast <;> norm_num
  · dsimp only [resolveGeometry]
    rw [show clampZoom (10001/10000) = 10001/10000 from by
      norm_num [clampZoom, min_def, max_def]]
    apply round_eq_of <;> push_cast <;> norm_num

/-- C3 (amended): for a fixed positive canvas and fixed center, scaled
dimensions are monotone (non-decreasing) in zoom for zoom values within
range — strictness fails because of rounding, see the counterexample. -/
theorem c3_zoom_monotone (ow oh : ℤ) (hw : 0 < ow) (hh : 0 < oh)
    (x y z1 z2 : ℚ) (s1 s2 : Shape) (hlt : z1 < z2) (h1 : 1/10 ≤ z1) (h2 : z2 ≤ 5) :
    (resolveGeometry ow oh ⟨x, y, z1, s1⟩).scaledWidth ≤
      (resolveGeometry ow oh ⟨x, y, z2, s2⟩).scaledWidth ∧
    (resolveGeometry ow oh ⟨x, y, z1, s1⟩).scaledHeight ≤
      (resolveGeometry ow oh ⟨x, y, z2, s2⟩).scaledHeight := by
  dsimp only [resolveGeometry]
  have hz := clampZoom_le_clampZoom hlt.le
  have hwq : (0 : ℚ) ≤ (ow : ℚ) := by exact_mod_cast hw.le
  have hhq : (0 : ℚ) ≤ (oh : ℚ) := by exact_mod_cast hh.le
  exact ⟨round_le_round (mul_le_mul_of_nonneg_left hz hwq),
    round_le_round (mul_le_mul_of_nonneg_left hz hhq)⟩

/-- Witness for the C3 theorem at canvas 500 by 500 with zoom 1 and 2. -/
theorem c3_witness :
    (0 : ℤ) < 500 ∧ (1 : ℚ) < 2 ∧ (1/10 : ℚ) ≤ 1 ∧ (2 : ℚ) ≤ 5 ∧
    ((resolveGeometry 500 500 ⟨50, 50, 1, Shape.circle⟩).scaledWidth ≤
      (resolveGeometry 500 500 ⟨50, 50, 2, Shape.circle⟩).scaledWidth ∧
    (resolveGeometry 500 500 ⟨50, 50, 1, Shape.circle⟩).scaledHeight ≤
      (resolveGeometry 500 500 ⟨50, 50, 2, Shape.circle⟩).scaledHeight) :=
  ⟨by decide, by norm_num, by norm_num, by norm_num,
    c3_zoom_monotone 500 500 (by decide) (by decide) 50 50 1 2 Shape.circle Shape.circle
      (by norm_num) (by norm_num) (by norm_num)⟩

/-- C4: for every positive canvas and every input, the resolved extraction
is capped at the canvas dimensions and the composite position is
nonnegative, so the extracted region placed on the canvas never exceeds the
canvas size. -/
theorem c4_extraction_bounded (ow oh : ℤ) (hw : 0 < ow) (hh : 0 < oh)
    (cd : CustomizationData) :
    (resolveGeometry ow oh cd).extractWidth ≤ ow ∧
    (resolveGeometry ow oh cd).extractHeight ≤ oh ∧
    0 ≤ (resolveGeometry ow oh cd).compositeLeft ∧
    0 ≤ (resolveGeometry ow oh cd).compositeTop := by
  dsimp only [resolveGeometry]
  exact ⟨min_le_right _ _, min_le_right _ _, le_max_left _ _, le_max_left _ _⟩

/-- Witness for the C4 theorem at canvas 500 by 500 with zoom 3 (the scaled
image is 3 times the canvas, more than twice oversized). -/
theorem c4_witness :
    (0 : ℤ) < 500 ∧
    ((resolveGeometry 500 500 ⟨50, 50, 3, Shape.heart⟩).extractWidth ≤ 500 ∧
    (resolveGeometry 500 500 ⟨50, 50, 3, Shape.heart⟩).extractHeight ≤ 500 ∧
    0 ≤ (resolveGeometry 500 500 ⟨50, 50, 3, Shape.heart⟩).compositeLeft ∧
    0 ≤ (resolveGeometry 500 500 ⟨50, 50, 3, Shape.heart⟩).compositeTop) :=
  ⟨by decide, c4_extraction_bounded 500 500 (by decide) (by decide) ⟨50, 50, 3, Shape.heart⟩⟩

/-- C5: on a degenerate 1 by 1 canvas at minimum zoom the extraction
resolves to width and height 0 (the claimed EmptyVisibleRegion condition),
and the code reports this as the generic transform failure — the sharp error
is swallowed by the catch block and replaced by the BadRequestException with
message Failed to transform image; no specific EmptyVisibleRegion error
exists anywhere in the code. -/
theorem c5_empty_region_generic_error :
    (resolveGeometry 1 1 ⟨0, 0, 1/10, Shape.circle⟩).extractWidth = 0 ∧
    (resolveGeometry 1 1 ⟨0, 0, 1/10, Shape.circle⟩).extractHeight = 0 ∧
    transformImage none ⟨100, 100⟩ ⟨0, 0, 1/10, Shape.circle⟩ 1 1 =
      .error .badRequestTransform := by
  refine ⟨by rw [geomB], by rw [geomB], ?_⟩
  apply transformImage_of_try_error _ _ _ _ _ (PipelineError.sharpFailure 0)
  simp only [transformImageTry, geomB]
  decide

/-- C6: whenever the pipeline (transform followed by shape mask) succeeds,
the resulting image has exactly the canvas dimensions, regardless of source
dimensions, customization data or shape. -/
theorem c6_output_size (enc : Option ℕ) (src : Image) (cd : CustomizationData)
    (ow oh : ℤ) (out : Image) (h : fullPipeline enc src cd ow oh = .ok out) :
    out.width = ow ∧ out.height = oh := by
  unfold fullPipeline at h
  simp only [bind, Except.bind] at h
  cases hT : transformImage enc src cd ow oh with
  | error e =>
    rw [hT] at h
    simp at h
  | ok t =>
    rw [hT] at h
    have := applyShapeMask_dims enc t ow oh cd.shape out h
    subst this
    exact ⟨rfl, rfl⟩

/-- Witness for the C6 theorem: a successful concrete run on an 800 by 600
source with the product canvas 500 by 500. -/
theorem c6_witness :
    fullPipeline none ⟨800, 600⟩ ⟨50, 50, 1, Shape.circle⟩ 500 500 = .ok ⟨500, 500⟩ ∧
    (Image.mk 500 500).width = 500 ∧ (Image.mk 500 500).height = 500 := by
  have hT : transformImage none ⟨800, 600⟩ ⟨50, 50, 1, Shape.circle⟩ 500 500 =
      .ok ⟨500, 500⟩ := by
    apply transformImage_of_try_ok
    simp only [transformImageTry, geomA]
    decide
  have hM : applyShapeMask none ⟨500, 500⟩ 500 500 Shape.circle = .ok ⟨500, 500⟩ := by
    apply applyShapeMask_of_try_ok
    decide
  have hrun : fullPipeline none ⟨800, 600⟩ ⟨50, 50, 1, Shape.circle⟩ 500 500 =
      .ok ⟨500, 500⟩ := by
    unfold fullPipeline
    simp only [bind, Except.bind, hT]
    exact hM
  exact ⟨hrun, c6_output_size none ⟨800, 600⟩ ⟨50, 50, 1, Shape.circle⟩ 500 500
    ⟨500, 500⟩ hrun⟩

/-- C7: the opaque region of the circle mask is the filled disk centered at
(width/2, height/2) with radius min(width, height)/2; on the 500 by 500
canvas this is the disk of radius 250 centered at (250, 250), the corner
pixel (5, 5) lies outside it, and the final output is fully transparent
there. -/
theorem c7_circle_mask :
    (∀ (w h : ℤ) (px py : ℚ), circleMaskFilled w h px py ↔
      (px - (w : ℚ)/2)^2 + (py - (h : ℚ)/2)^2 ≤ (((min w h : ℤ) : ℚ)/2)^2) ∧
    (∀ px py : ℚ, circleMaskFilled 500 500 px py ↔
      (px - 250)^2 + (py - 250)^2 ≤ 250^2) ∧
    ¬ circleMaskFilled 500 500 5 5 ∧
    circleShapedAlpha 500 500 5 5 = 0 := by
  refine ⟨fun w h px py => Iff.rfl, fun px py => ?_, ?_, ?_⟩
  · norm_num [circleMaskFilled]
  · norm_num [circleMaskFilled]
  · rw [circleShapedAlpha, if_neg]
    norm_num [circleMaskFilled]

/-- C8 counterexample: on a 1000 by 1000 canvas the code writes corner
radius 10 into the mask SVG, while a radius proportional to canvas size
(10 px at the 500 reference scale) would be 20 — the corner radius is not
scaled for other canvas sizes. -/
theorem c8_counterexample :
    rectMaskCornerRadius 1000 1000 = 10 ∧ rectMaskCornerRadiusSpec 1000 1000 = 20 ∧
    rectMaskCornerRadius 1000 1000 ≠ rectMaskCornerRadiusSpec 1000 1000 := by
  norm_num [rectMaskCornerRadius, rectMaskCornerRadiusSpec]

/-- C8 (amended): the rectangle mask is inset from each canvas edge by 8
percent of min(width, height), and its corner radius is the fixed constant
10 px for every canvas size (not scaled proportionally). -/
theorem c8_rectangle_mask (w h : ℤ) :
    rectMaskX w h = ((min w h : ℤ) : ℚ) * (8/100) ∧
    rectMaskY w h = ((min w h : ℤ) : ℚ) * (8/100) ∧
    rectMaskWidth w h = (w : ℚ) - 2 * (((min w h : ℤ) : ℚ) * (8/100)) ∧
    rectMaskHeight w h = (h : ℚ) - 2 * (((min w h : ℤ) : ℚ) * (8/100)) ∧
    (∀ wB hB : ℤ, rectMaskCornerRadius w h = rectMaskCornerRadius wB hB) ∧
    rectMaskCornerRadius w h = 10 := by
  refine ⟨rfl, rfl, ?_, ?_, fun wB hB => rfl, rfl⟩
  · unfold rectMaskWidth rectMaskPadding
    ring
  · unfold rectMaskHeight rectMaskPadding
    ring

/-- C9 counterexample: with a specific injected codec failure (opaque code
7) the transform stage does not propagate that failure — the caller sees the
generic BadRequestException instead, a different error value. -/
theorem c9_counterexample :
    transformImage (some 7) ⟨800, 600⟩ ⟨50, 50, 1, Shape.circle⟩ 500 500 =
      .error .badRequestTransform ∧
    (Except.error PipelineError.badRequestTransform : Except PipelineError Image) ≠
      .error (.sharpFailure 7) := by
  refine ⟨transformImage_codec_fails 7 ⟨800, 600⟩ ⟨50, 50, 1, Shape.circle⟩ 500 500, ?_⟩
  intro h
  simp at h

/-- C9 (amended): codec failures are never retried, but they are not
propagated unchanged either — for every injected codec failure and every
input, transformImage reports the generic transform BadRequestException and
applyShapeMask the generic shape-mask BadRequestException, and neither
generic error equals any underlying sharp failure. -/
theorem c9_codec_error_replaced (c : ℕ) (src : Image) (cd : CustomizationData)
    (ow oh : ℤ) (img : Image) (w h : ℤ) (s : Shape) :
    transformImage (some c) src cd ow oh = .error .badRequestTransform ∧
    applyShapeMask (some c) img w h s = .error (.badRequestMask s) ∧
    (∀ cB : ℕ, PipelineError.badRequestTransform ≠ .sharpFailure cB) ∧
    (∀ cB : ℕ, PipelineError.badRequestMask s ≠ .sharpFailure cB) := by
  refine ⟨transformImage_codec_fails c src cd ow oh,
    applyShapeMask_codec_fails c img w h s, ?_, ?_⟩ <;> intro cB hEq <;> simp at hEq

/-- C10: on the 500 by 500 product canvas, for every input (after the
defensive clamping the code performs) the extraction rectangle has
nonnegative offsets, lies inside the resized image, and is at least 1 by 1 —
a zero-or-negative extraction is unreachable under clamped inputs. -/
theorem c10_extraction_safety (cd : CustomizationData) :
    let g := resolveGeometry 500 500 cd
    0 ≤ g.extractLeft ∧ 0 ≤ g.extractTop ∧
    g.extractLeft + g.extractWidth ≤ g.scaledWidth ∧
    g.extractTop + g.extractHeight ≤ g.scaledHeight ∧
    1 ≤ g.extractWidth ∧ 1 ≤ g.extractHeight := by
  have hzoom := clampZoom_mem cd.zoom
  have hx := clampPct_mem cd.x
  have hy := clampPct_mem cd.y
  have h50w : (50 : ℤ) ≤ round (((500 : ℤ) : ℚ) * clampZoom cd.zoom) := by
    have : round ((50 : ℚ)) = 50 := by norm_num
    calc (50 : ℤ) = round ((50 : ℚ)) := this.symm
      _ ≤ round (((500 : ℤ) : ℚ) * clampZoom cd.zoom) := by
          apply round_le_round
          push_cast
          linarith [hzoom.1]
  have hcx : (0 : ℤ) ≤ round (clampPct cd.x / 100 * ((500 : ℤ) : ℚ)) := by
    have : round ((0 : ℚ)) = 0 := round_zero
    calc (0 : ℤ) = round ((0 : ℚ)) := this.symm
      _ ≤ round (clampPct cd.x / 100 * ((500 : ℤ) : ℚ)) := by
          apply round_le_round
          push_cast
          nlinarith [hx.1]
  have hcy : (0 : ℤ) ≤ round (clampPct cd.y / 100 * ((500 : ℤ) : ℚ)) := by
    have : round ((0 : ℚ)) = 0 := round_zero
    calc (0 : ℤ) = round ((0 : ℚ)) := this.symm
      _ ≤ round (clampPct cd.y / 100 * ((500 : ℤ) : ℚ)) := by
          apply round_le_round
          push_cast
          nlinarith [hy.1]
  dsimp only [resolveGeometry]
  have A := extract_axis 500 (round (clampPct cd.x / 100 * ((500 : ℤ) : ℚ)))
    (round (((500 : ℤ) : ℚ) * clampZoom cd.zoom)) (by norm_num) hcx (by omega)
  have B := extract_axis 500 (round (clampPct cd.y / 100 * ((500 : ℤ) : ℚ)))
    (round (((500 : ℤ) : ℚ) * clampZoom cd.zoom)) (by norm_num) hcy (by omega)
  exact ⟨A.1, B.1, A.2.1, B.2.1, A.2.2, B.2.2⟩

end Customizer
